import Mathlib

/-!
# Verification of the "Bugger" game core

A shallow embedding of the game logic of the Bugger repository
(`src/js/app.js`, `src/js/configModule.js` and the CONFIG-based app
variant) together with proofs about the collision detector, the player
input handler, the enemy update, and the configuration module.

JavaScript numbers are modelled as rationals (`ℚ`); the grid
parameters (`numCols`, `numLanes`, difficulty, ...) that the code keeps
in mutable module-level variables are passed to every definition as
explicit parameters.  `Math.random()` is modelled as an explicit draw
`u` with `0 ≤ u < 1`.
-/

namespace Bugger

/-! ## Tileset constants (app.js lines 13-17, configModule.js settings) -/

/-- `var COLWIDTH = 101;` -/
def COLWIDTH : ℚ := 101

/-- `var ROWHEIGHT = 83;` -/
def ROWHEIGHT : ℚ := 83

/-- `var TILEBOTTOM = 37;` -/
def TILEBOTTOM : ℚ := 37

/-- `var TILETOP = 51;` -/
def TILETOP : ℚ := 51

/-- `var dy = -26;` vertical adjustment centering sprites in tiles. -/
def dy : ℚ := -26

/-! ## Collision detector (app.js lines 94-109) -/

/-- `checkCollision(e, p)` from app.js, with the enemy position
`(ex, ey)` and player position `(px, py)` passed explicitly.  Returns
`!(pLeft > eRight || pRight < eLeft || pTop > eBottom || pBottom < eTop)`. -/
def checkCollision (ex ey px py : ℚ) : Bool :=
  let eLeft := ex
  let eRight := ex + COLWIDTH
  let eTop := ey + 65
  let eBottom := ey + ROWHEIGHT - 30
  let pLeft := px + 30
  let pRight := px + COLWIDTH - 30
  let pTop := py + 45
  let pBottom := py + ROWHEIGHT
  !(decide (pLeft > eRight) || decide (pRight < eLeft) ||
    decide (pTop > eBottom) || decide (pBottom < eTop))

/-- Set-theoretic intersection of the two closed boxes named by the
specification: enemy box `[ex, ex+COLWIDTH] × [ey+65, ey+ROWHEIGHT-30]`
and player box `[px+30, px+COLWIDTH-30] × [py+45, py+ROWHEIGHT]` share
a common point. -/
def boxesIntersect (ex ey px py : ℚ) : Prop :=
  ∃ qx qy : ℚ,
    (ex ≤ qx ∧ qx ≤ ex + COLWIDTH ∧ ey + 65 ≤ qy ∧ qy ≤ ey + ROWHEIGHT - 30) ∧
    (px + 30 ≤ qx ∧ qx ≤ px + COLWIDTH - 30 ∧ py + 45 ≤ qy ∧ qy ≤ py + ROWHEIGHT)

/-- An axis-aligned box given by its four edge coordinates. -/
structure Box where
  left : ℚ
  right : ℚ
  top : ℚ
  bottom : ℚ

/-- The enemy box of `checkCollision`, bound to the enemy entity. -/
def enemyBox (ex ey : ℚ) : Box :=
  { left := ex, right := ex + COLWIDTH, top := ey + 65, bottom := ey + ROWHEIGHT - 30 }

/-- The player box of `checkCollision`, bound to the player entity. -/
def playerBox (px py : ℚ) : Box :=
  { left := px + 30, right := px + COLWIDTH - 30, top := py + 45, bottom := py + ROWHEIGHT }

/-- The generic endpoint-order overlap verdict that `checkCollision`
computes with `A` the enemy box and `B` the player box. -/
def boxOverlap (A B : Box) : Bool :=
  !(decide (B.left > A.right) || decide (B.right < A.left) ||
    decide (B.top > A.bottom) || decide (B.bottom < A.top))

/-- C1 counterexample.  With the enemy and the player both in lane 1 at
column 0 (`y = 1 * ROWHEIGHT + dy = 57`) — a hit the game actually
registers — the function returns `true`, yet the two closed boxes are
disjoint as point sets: the enemy box's vertical extent
`[ey + 65, ey + 83 - 30] = [ey + 65, ey + 53]` is empty. -/
theorem checkCollision_true_boxes_disjoint :
    checkCollision 0 57 0 57 = true ∧ ¬ boxesIntersect 0 57 0 57 := by
  constructor
  · norm_num [checkCollision, COLWIDTH, ROWHEIGHT]
  · rintro ⟨qx, qy, ⟨-, -, h1, h2⟩, -⟩
    rw [ROWHEIGHT] at h2
    linarith

/-- C1 (amended).  `checkCollision` returns `true` exactly when the
four endpoint comparisons hold: `px+30 ≤ ex+COLWIDTH`,
`ex ≤ px+COLWIDTH-30`, `py+45 ≤ ey+ROWHEIGHT-30` and
`ey+65 ≤ py+ROWHEIGHT`; equivalently it returns `false` exactly when
one of the four strict disjointness comparisons fires.  (Because the
enemy interval `[ey+65, ey+ROWHEIGHT-30]` is empty for
`ROWHEIGHT = 83`, this endpoint test is not equivalent to
set-intersection of the closed boxes.) -/
theorem checkCollision_iff_endpoint_overlap (ex ey px py : ℚ) :
    checkCollision ex ey px py = true ↔
      (px + 30 ≤ ex + COLWIDTH ∧ ex ≤ px + COLWIDTH - 30 ∧
       py + 45 ≤ ey + ROWHEIGHT - 30 ∧ ey + 65 ≤ py + ROWHEIGHT) := by
  simp only [checkCollision, Bool.not_eq_true', Bool.or_eq_false_iff,
    decide_eq_false_iff_not, not_lt]
  tauto

/-- C9.  The collision verdict is symmetric in the two type-bound
boxes: `checkCollision` computes the generic overlap test of the enemy
box against the player box, and that generic test gives the same
verdict with the two boxes supplied in the opposite order. -/
theorem checkCollision_symmetric (ex ey px py : ℚ) :
    checkCollision ex ey px py = boxOverlap (enemyBox ex ey) (playerBox px py) ∧
    boxOverlap (enemyBox ex ey) (playerBox px py) =
      boxOverlap (playerBox px py) (enemyBox ex ey) := by
  constructor
  · rfl
  · have h : ∀ A B : Box, boxOverlap A B = boxOverlap B A := by
      intro A B
      rw [Bool.eq_iff_iff]
      simp only [boxOverlap, Bool.not_eq_true', Bool.or_eq_false_iff,
        decide_eq_false_iff_not, not_lt]
      tauto
    exact h _ _

/-! ## Player (app.js lines 248-335)

The mutable globals `numCols` and `numRows = numLanes + 3` (lines
21-26) are passed as explicit parameters. -/

/-- The position state of a `Player` instance. -/
structure Player where
  x : ℚ
  y : ℚ
deriving DecidableEq

/-- `Player.prototype.getCurrentCol` (app.js line 314): `this.x / COLWIDTH`. -/
def getCurrentCol (p : Player) : ℚ := p.x / COLWIDTH

/-- `Player.prototype.getCurrentRow` (app.js line 323): `(this.y - dy) / ROWHEIGHT`. -/
def getCurrentRow (p : Player) : ℚ := (p.y - dy) / ROWHEIGHT

/-- `playerStartCol = Math.floor(numCols / 2)` (app.js line 33). -/
def playerStartCol (numCols : ℤ) : ℤ := ⌊(numCols : ℚ) / 2⌋

/-- `Player.prototype.setInitialPosition` (app.js lines 262-265):
`x = playerStartCol * COLWIDTH; y = PlayerStartRow * ROWHEIGHT + dy`
with `PlayerStartRow = numRows - 1`. -/
def setInitialPosition (numCols numRows : ℤ) : Player :=
  { x := (playerStartCol numCols : ℚ) * COLWIDTH
    y := ((numRows : ℚ) - 1) * ROWHEIGHT + dy }

/-- `Player.prototype.handleInput` (app.js lines 284-307): a `switch`
on the direction string; each recognized case moves one tile when the
corresponding edge guard allows it, and an unrecognized direction
changes nothing. -/
def handleInput (numCols numRows : ℤ) (direction : String) (p : Player) : Player :=
  if direction = "left" then
    if getCurrentCol p > 0 then { p with x := p.x - COLWIDTH } else p
  else if direction = "right" then
    if getCurrentCol p < (numCols : ℚ) - 1 then { p with x := p.x + COLWIDTH } else p
  else if direction = "up" then
    if getCurrentRow p > 0 then { p with y := p.y - ROWHEIGHT } else p
  else if direction = "down" then
    if getCurrentRow p < (numRows : ℚ) - 1 then { p with y := p.y + ROWHEIGHT } else p
  else p

/-- Columns are pinned down by x-positions: at `x = c * COLWIDTH` the
current column is `c`. -/
theorem getCurrentCol_eq (p : Player) (c : ℤ) (hx : p.x = (c : ℚ) * COLWIDTH) :
    getCurrentCol p = (c : ℚ) := by
  rw [getCurrentCol, hx, COLWIDTH]
  norm_num

/-- Rows are pinned down by y-positions: at `y = r * ROWHEIGHT + dy`
the current row is `r`. -/
theorem getCurrentRow_eq (p : Player) (r : ℤ) (hy : p.y = (r : ℚ) * ROWHEIGHT + dy) :
    getCurrentRow p = (r : ℚ) := by
  rw [getCurrentRow, hy, ROWHEIGHT]
  ring_nf

/-- C2.  For a player aligned at column `c` (any `0 ≤ c ≤ numCols - 1`),
`handleInput "left"` is the identity at column 0 and otherwise moves
the player exactly one column width left, leaving `y` unchanged: the
request is applied in full or ignored, never partially. -/
theorem handleInput_left_step (numCols numRows c : ℤ) (p : Player)
    (hc0 : 0 ≤ c) (hc1 : c ≤ numCols - 1) (hx : p.x = (c : ℚ) * COLWIDTH) :
    handleInput numCols numRows "left" p =
      if c = 0 then p else { x := p.x - COLWIDTH, y := p.y } := by
  have hcol : getCurrentCol p = (c : ℚ) := getCurrentCol_eq p c hx
  have hstep : handleInput numCols numRows "left" p =
      if getCurrentCol p > 0 then { p with x := p.x - COLWIDTH } else p := by
    rw [handleInput, if_pos rfl]
  rw [hstep, hcol]
  by_cases h : c = 0
  · subst h
    rw [if_neg (by norm_num), if_pos rfl]
  · have hc : (0 : ℚ) < (c : ℚ) := by
      exact_mod_cast lt_of_le_of_ne hc0 (Ne.symm h)
    rw [if_pos hc, if_neg h]

/-- C2 witness: at `numCols = 7`, column 3, one "left" keypress moves
the player from `x = 303` to `x = 202` and keeps `y = 471`. -/
theorem handleInput_left_step_witness :
    handleInput 7 10 "left" { x := 303, y := 471 } = { x := 202, y := 471 } := by
  have h := handleInput_left_step 7 10 3 { x := 303, y := 471 }
    (by norm_num) (by norm_num) (by norm_num [COLWIDTH])
  norm_num [COLWIDTH] at h
  exact h

/-! ## Win, death and the scoreboard (app.js lines 67-84, 271-275,
332-335, 363-384) -/

/-- A player together with the scoreboard streak (`stats.streak`). -/
structure PlayerState where
  player : Player
  streak : ℤ
deriving DecidableEq

/-- `win(currentPlayer)` (app.js lines 67-70):
`stats.incrementStreak(); currentPlayer.setInitialPosition();`. -/
def win (numCols numRows : ℤ) (s : PlayerState) : PlayerState :=
  { player := setInitialPosition numCols numRows, streak := s.streak + 1 }

/-- `Player.prototype.update` (app.js lines 271-275):
`if (this.getCurrentRow() < 1) { win(this); }`. -/
def playerUpdate (numCols numRows : ℤ) (s : PlayerState) : PlayerState :=
  if getCurrentRow s.player < 1 then win numCols numRows s else s

/-- `Player.prototype.die` (app.js lines 332-335):
`stats.resetStreak(); this.setInitialPosition();`. -/
def die (numCols numRows : ℤ) (_s : PlayerState) : PlayerState :=
  { player := setInitialPosition numCols numRows, streak := 0 }

/-- C3.  Whenever the player's update runs with current row `< 1`, the
streak increases by exactly 1 from any prior value and the player is
put back at the configured start position; with current row `≥ 1` the
update changes nothing. -/
theorem playerUpdate_goal_row (numCols numRows : ℤ) (s : PlayerState) :
    (getCurrentRow s.player < 1 →
      playerUpdate numCols numRows s =
        { player := { x := (playerStartCol numCols : ℚ) * COLWIDTH
                      y := ((numRows : ℚ) - 1) * ROWHEIGHT + dy }
          streak := s.streak + 1 }) ∧
    (1 ≤ getCurrentRow s.player → playerUpdate numCols numRows s = s) := by
  constructor
  · intro h
    rw [playerUpdate, if_pos h]
    rfl
  · intro h
    rw [playerUpdate, if_neg (not_lt.mpr h)]

/-! ## Enemies and the collision sweep (app.js lines 78-84, 183-236) -/

/-- The mutable state of an `Enemy` instance. -/
structure Enemy where
  x : ℚ
  y : ℚ
  speed : ℚ
deriving DecidableEq

/-- `checkCollisions()` (app.js lines 78-84):
`allEnemies.forEach(enemy => { if (checkCollision(enemy, player)) player.die(); })`,
with the enemy array, the player and the scoreboard passed explicitly.
`forEach` visits the array in order, so the sweep is a left fold. -/
def checkCollisionsAll (numCols numRows : ℤ) (enemies : List Enemy)
    (s : PlayerState) : PlayerState :=
  enemies.foldl
    (fun st e =>
      if checkCollision e.x e.y st.player.x st.player.y then die numCols numRows st else st)
    s

/-- Once the failure transition has run, further hits in the same sweep
leave the state at (start position, streak 0). -/
theorem checkCollisionsAll_after_die (numCols numRows : ℤ) (enemies : List Enemy) :
    checkCollisionsAll numCols numRows enemies
        { player := setInitialPosition numCols numRows, streak := 0 } =
      { player := setInitialPosition numCols numRows, streak := 0 } := by
  induction enemies with
  | nil => rfl
  | cons e es ih =>
    rw [checkCollisionsAll, List.foldl_cons]
    by_cases h : checkCollision e.x e.y (setInitialPosition numCols numRows).x
        (setInitialPosition numCols numRows).y = true
    · simpa [checkCollisionsAll, h, die] using ih
    · simpa [checkCollisionsAll, h] using ih

/-- C4.  The collision sweep tests the enemies in array order against
the current player and each hit independently triggers `die` with no
per-tick deduplication (first conjunct, the step equation); `die` sets
the streak to exactly 0 and the player to the start position whatever
the prior state was (second conjunct); consequently a sweep ends in
(start position, streak 0) exactly when some enemy registers a hit
during it, and leaves the state untouched otherwise (third conjunct). -/
theorem checkCollisions_failure_transition (numCols numRows : ℤ) (e : Enemy)
    (es : List Enemy) (s : PlayerState) :
    checkCollisionsAll numCols numRows (e :: es) s =
      checkCollisionsAll numCols numRows es
        (if checkCollision e.x e.y s.player.x s.player.y then die numCols numRows s
         else s) ∧
    die numCols numRows s =
      { player := setInitialPosition numCols numRows, streak := 0 } ∧
    checkCollisionsAll numCols numRows es s =
      (if es.any (fun en => checkCollision en.x en.y s.player.x s.player.y)
       then { player := setInitialPosition numCols numRows, streak := 0 }
       else s) := by
  refine ⟨rfl, rfl, ?_⟩
  induction es generalizing s with
  | nil => rfl
  | cons en ens ih =>
    rw [checkCollisionsAll, List.foldl_cons, List.any_cons]
    by_cases h : checkCollision en.x en.y s.player.x s.player.y = true
    · rw [if_pos h, h, Bool.true_or, if_pos rfl]
      exact checkCollisionsAll_after_die numCols numRows ens
    · rw [if_neg h, Bool.eq_false_iff.mpr h, Bool.false_or]
      exact ih s

/-! ## Grid alignment invariant (app.js lines 262-265 and 284-307) -/

/-- The player sits exactly on a grid tile inside the board: `x` is a
whole number of column widths and `y` a whole number of row heights
plus `dy`, with the column in `[0, numCols - 1]` and the row in
`[0, numRows - 1]`. -/
def gridAligned (numCols numRows : ℤ) (p : Player) : Prop :=
  ∃ c r : ℤ,
    p.x = (c : ℚ) * COLWIDTH ∧ p.y = (r : ℚ) * ROWHEIGHT + dy ∧
    0 ≤ c ∧ c ≤ numCols - 1 ∧ 0 ≤ r ∧ r ≤ numRows - 1

/-- C10.  On any board with at least one column and one row, the start
position is grid-aligned and in bounds, and every `handleInput` call —
with any direction string, recognized or not — preserves the exact
grid alignment and bounds. -/
theorem gridAligned_invariant (numCols numRows : ℤ)
    (hc : 1 ≤ numCols) (hr : 1 ≤ numRows) :
    gridAligned numCols numRows (setInitialPosition numCols numRows) ∧
    ∀ (direction : String) (p : Player), gridAligned numCols numRows p →
      gridAligned numCols numRows (handleInput numCols numRows direction p) := by
  constructor
  · refine ⟨playerStartCol numCols, numRows - 1, rfl, by push_cast [setInitialPosition]; ring,
      ?_, ?_, by omega, by omega⟩
    · rw [playerStartCol]
      positivity
    · rw [playerStartCol]
      have hlt : (numCols : ℚ) / 2 < (numCols : ℚ) := by
        have : (0 : ℚ) < (numCols : ℚ) := by exact_mod_cast hc
        linarith
      have := Int.floor_lt.mpr hlt
      omega
  · rintro direction p ⟨c, r, hx, hy, hc0, hc1, hr0, hr1⟩
    have hcol : getCurrentCol p = (c : ℚ) := getCurrentCol_eq p c hx
    have hrow : getCurrentRow p = (r : ℚ) := getCurrentRow_eq p r hy
    rw [handleInput]
    by_cases hL : direction = "left"
    · rw [if_pos hL, hcol]
      by_cases h : (0 : ℚ) < (c : ℚ)
      · rw [if_pos h]
        have hzc : 0 < c := by exact_mod_cast h
        exact ⟨c - 1, r, by push_cast [hx]; ring, hy, by omega, by omega, hr0, hr1⟩
      · rw [if_neg h]
        exact ⟨c, r, hx, hy, hc0, hc1, hr0, hr1⟩
    rw [if_neg hL]
    by_cases hR : direction = "right"
    · rw [if_pos hR, hcol]
      by_cases h : (c : ℚ) < (numCols : ℚ) - 1
      · rw [if_pos h]
        have hzc : c < numCols - 1 := by
          have : (c : ℚ) < ((numCols - 1 : ℤ) : ℚ) := by push_cast; linarith
          exact_mod_cast this
        exact ⟨c + 1, r, by push_cast [hx]; ring, hy, by omega, by omega, hr0, hr1⟩
      · rw [if_neg h]
        exact ⟨c, r, hx, hy, hc0, hc1, hr0, hr1⟩
    rw [if_neg hR]
    by_cases hU : direction = "up"
    · rw [if_pos hU, hrow]
      by_cases h : (0 : ℚ) < (r : ℚ)
      · rw [if_pos h]
        have hzr : 0 < r := by exact_mod_cast h
        exact ⟨c, r - 1, hx, by push_cast [hy]; ring, hc0, hc1, by omega, by omega⟩
      · rw [if_neg h]
        exact ⟨c, r, hx, hy, hc0, hc1, hr0, hr1⟩
    rw [if_neg hU]
    by_cases hD : direction = "down"
    · rw [if_pos hD, hrow]
      by_cases h : (r : ℚ) < (numRows : ℚ) - 1
      · rw [if_pos h]
        have hzr : r < numRows - 1 := by
          have : (r : ℚ) < ((numRows - 1 : ℤ) : ℚ) := by push_cast; linarith
          exact_mod_cast this
        exact ⟨c, r + 1, hx, by push_cast [hy]; ring, hc0, hc1, by omega, by omega⟩
      · rw [if_neg h]
        exact ⟨c, r, hx, hy, hc0, hc1, hr0, hr1⟩
    rw [if_neg hD]
    exact ⟨c, r, hx, hy, hc0, hc1, hr0, hr1⟩

/-- C10 witness: on the shipped 7-column, 10-row board the start
position is grid-aligned, and so is the result of an "up" keypress
from it. -/
theorem gridAligned_invariant_witness :
    gridAligned 7 10 (setInitialPosition 7 10) ∧
    gridAligned 7 10 (handleInput 7 10 "up" (setInitialPosition 7 10)) := by
  have h := gridAligned_invariant 7 10 (by norm_num) (by norm_num)
  exact ⟨h.1, h.2 "up" (setInitialPosition 7 10) h.1⟩

/-! ## Enemy motion and respawn (app.js lines 57-59, 205-236)

`Math.random()` is modelled as a draw `u` with `0 ≤ u < 1` passed
explicitly; `getRandomInt` is the source's
`Math.floor(Math.random() * (max - min) + min)`. -/

/-- `getRandomInt(min, max)` (app.js lines 57-59) applied to the draw `u`. -/
def getRandomInt (min max u : ℚ) : ℤ := ⌊u * (max - min) + min⌋

/-- `Enemy.prototype.setRandomValues` (app.js lines 205-219):
`x = getRandomInt(1, numCols) * -COLWIDTH`,
`y = getRandomInt(1, numLanes + 1) * ROWHEIGHT + dy`,
`speed = baseEnemySpeed + 50 * getRandomInt(1, gameDifficulty + 1)`. -/
def setRandomValues (numCols numLanes : ℤ) (baseEnemySpeed : ℚ)
    (gameDifficulty : ℤ) (u1 u2 u3 : ℚ) : Enemy :=
  { x := (getRandomInt 1 (numCols : ℚ) u1 : ℚ) * (-COLWIDTH)
    y := (getRandomInt 1 ((numLanes : ℚ) + 1) u2 : ℚ) * ROWHEIGHT + dy
    speed := baseEnemySpeed + 50 * (getRandomInt 1 ((gameDifficulty : ℚ) + 1) u3 : ℚ) }

/-- `Enemy.prototype.update` (app.js lines 227-236): advance by
`dt * speed` while `x < COLWIDTH * numCols`, otherwise re-roll. -/
def enemyUpdate (numCols numLanes : ℤ) (baseEnemySpeed : ℚ) (gameDifficulty : ℤ)
    (dt u1 u2 u3 : ℚ) (e : Enemy) : Enemy :=
  if e.x < COLWIDTH * (numCols : ℚ) then { e with x := e.x + dt * e.speed }
  else setRandomValues numCols numLanes baseEnemySpeed gameDifficulty u1 u2 u3

/-- The quantized draw `getRandomInt 1 (n + 1) u` lands in `[1, n]`
whenever `n ≥ 1` and `0 ≤ u < 1`. -/
theorem getRandomInt_one_succ_mem (n : ℤ) (u : ℚ) (hn : 1 ≤ n)
    (hu0 : 0 ≤ u) (hu1 : u < 1) :
    1 ≤ getRandomInt 1 ((n : ℚ) + 1) u ∧ getRandomInt 1 ((n : ℚ) + 1) u ≤ n := by
  have hnq : (1 : ℚ) ≤ (n : ℚ) := by exact_mod_cast hn
  constructor
  · rw [getRandomInt]
    rw [Int.le_floor]
    have : 0 ≤ u * ((n : ℚ) + 1 - 1) := by
      apply mul_nonneg hu0
      linarith
    push_cast
    linarith
  · rw [getRandomInt]
    have : ⌊u * ((n : ℚ) + 1 - 1) + 1⌋ < n + 1 := by
      rw [Int.floor_lt]
      have : u * ((n : ℚ) + 1 - 1) < (n : ℚ) := by
        have := mul_lt_mul_of_pos_right hu1 (show (0 : ℚ) < (n : ℚ) by linarith)
        calc u * ((n : ℚ) + 1 - 1) = u * (n : ℚ) := by ring
          _ < 1 * (n : ℚ) := this
          _ = (n : ℚ) := one_mul _
      push_cast
      linarith
    omega

/-- C5.  With at least one column, one lane and difficulty at least 1:
while `x < COLWIDTH * numCols` the update advances `x` by exactly
`dt * speed` and leaves `y` and `speed` unchanged; otherwise it
re-rolls, and every outcome of the draws gives `x < 0`,
`ROWHEIGHT + dy ≤ y ≤ numLanes * ROWHEIGHT + dy`, and
`speed = baseEnemySpeed + 50 * k` for some integer `1 ≤ k ≤ gameDifficulty`. -/
theorem enemyUpdate_advance_or_respawn (numCols numLanes : ℤ) (baseEnemySpeed : ℚ)
    (gameDifficulty : ℤ) (dt u1 u2 u3 : ℚ) (e : Enemy)
    (hcols : 1 ≤ numCols) (hlanes : 1 ≤ numLanes) (hdiff : 1 ≤ gameDifficulty)
    (hu10 : 0 ≤ u1) (hu11 : u1 < 1) (hu20 : 0 ≤ u2) (hu21 : u2 < 1)
    (hu30 : 0 ≤ u3) (hu31 : u3 < 1) :
    (e.x < COLWIDTH * (numCols : ℚ) →
      enemyUpdate numCols numLanes baseEnemySpeed gameDifficulty dt u1 u2 u3 e =
        { x := e.x + dt * e.speed, y := e.y, speed := e.speed }) ∧
    (¬ e.x < COLWIDTH * (numCols : ℚ) →
      (enemyUpdate numCols numLanes baseEnemySpeed gameDifficulty dt u1 u2 u3 e).x < 0 ∧
      ROWHEIGHT + dy ≤
        (enemyUpdate numCols numLanes baseEnemySpeed gameDifficulty dt u1 u2 u3 e).y ∧
      (enemyUpdate numCols numLanes baseEnemySpeed gameDifficulty dt u1 u2 u3 e).y ≤
        (numLanes : ℚ) * ROWHEIGHT + dy ∧
      ∃ k : ℤ,
        (enemyUpdate numCols numLanes baseEnemySpeed gameDifficulty dt u1 u2 u3 e).speed =
          baseEnemySpeed + 50 * (k : ℚ) ∧ 1 ≤ k ∧ k ≤ gameDifficulty) := by
  constructor
  · intro h
    rw [enemyUpdate, if_pos h]
  · intro h
    rw [enemyUpdate, if_neg h, setRandomValues]
    dsimp only
    have hx1 : 1 ≤ getRandomInt 1 (numCols : ℚ) u1 := by
      rw [getRandomInt, Int.le_floor]
      have : 0 ≤ u1 * ((numCols : ℚ) - 1) := by
        apply mul_nonneg hu10
        have : (1 : ℚ) ≤ (numCols : ℚ) := by exact_mod_cast hcols
        linarith
      push_cast
      linarith
    have h2 := getRandomInt_one_succ_mem numLanes u2 hlanes hu20 hu21
    have h3 := getRandomInt_one_succ_mem gameDifficulty u3 hdiff hu30 hu31
    refine ⟨?_, ?_, ?_, getRandomInt 1 ((gameDifficulty : ℚ) + 1) u3, rfl, h3.1, h3.2⟩
    · have : (1 : ℚ) ≤ (getRandomInt 1 (numCols : ℚ) u1 : ℚ) := by exact_mod_cast hx1
      rw [COLWIDTH]
      nlinarith
    · have : (1 : ℚ) ≤ (getRandomInt 1 ((numLanes : ℚ) + 1) u2 : ℚ) := by
        exact_mod_cast h2.1
      rw [ROWHEIGHT]
      nlinarith
    · have : (getRandomInt 1 ((numLanes : ℚ) + 1) u2 : ℚ) ≤ (numLanes : ℚ) := by
        exact_mod_cast h2.2
      rw [ROWHEIGHT]
      nlinarith

/-- C5 witness: on the shipped configuration (7 columns, 5 lanes, base
speed 200, difficulty 4) with draws of 1/2, an enemy that has left the
board re-rolls to an off-screen position in a lane at a quantized
speed. -/
theorem enemyUpdate_advance_or_respawn_witness :
    (enemyUpdate 7 5 200 4 1 (1/2) (1/2) (1/2) { x := 1000, y := 140, speed := 250 }).x < 0 ∧
    ROWHEIGHT + dy ≤
      (enemyUpdate 7 5 200 4 1 (1/2) (1/2) (1/2) { x := 1000, y := 140, speed := 250 }).y ∧
    (enemyUpdate 7 5 200 4 1 (1/2) (1/2) (1/2) { x := 1000, y := 140, speed := 250 }).y ≤
      (5 : ℚ) * ROWHEIGHT + dy ∧
    ∃ k : ℤ,
      (enemyUpdate 7 5 200 4 1 (1/2) (1/2) (1/2) { x := 1000, y := 140, speed := 250 }).speed =
        200 + 50 * (k : ℚ) ∧ 1 ≤ k ∧ k ≤ 4 := by
  have h := enemyUpdate_advance_or_respawn 7 5 200 4 1 (1/2) (1/2) (1/2)
    { x := 1000, y := 140, speed := 250 } (by norm_num) (by norm_num) (by norm_num)
    (by norm_num) (by norm_num) (by norm_num) (by norm_num) (by norm_num) (by norm_num)
  exact h.2 (by norm_num [COLWIDTH])

/-! ## The CONFIG module (src/js/configModule.js)

The closure-private `settings` object is a record; `CONFIG.init` fills
in the five tunables on top of the literal initial values; each getter
and setter is a function of the record.  Setters that mutate and
return a value are modelled as `Settings → Settings × Option ℚ`
(`none` is JavaScript's `undefined` fall-through return). -/

/-- The private `settings` record (configModule.js lines 20-28 plus the
five fields written by `init`, lines 126-132). -/
structure Settings where
  colWidth : ℚ
  rowHeight : ℚ
  tileBottom : ℚ
  tileTop : ℚ
  tileHeight : ℚ
  dy : ℚ
  scale : ℚ
  numLanes : ℚ
  numCols : ℚ
  numEnemies : ℚ
  baseEnemySpeed : ℚ
  gameDifficulty : ℚ
deriving DecidableEq

/-- `CONFIG.init(numLanes, numCols, numEnemies, baseEnemySpeed,
gameDifficulty)` (configModule.js lines 126-132) applied to the
settings literal of lines 20-28. -/
def configInit (numLanes numCols numEnemies baseEnemySpeed gameDifficulty : ℚ) :
    Settings :=
  { colWidth := 101, rowHeight := 83, tileBottom := 37, tileTop := 51
    tileHeight := 171, dy := -26, scale := 1
    numLanes := numLanes, numCols := numCols, numEnemies := numEnemies
    baseEnemySpeed := baseEnemySpeed, gameDifficulty := gameDifficulty }

/-- `getNumRows()` (line 63): `settings.numLanes + 3`. -/
def getNumRows (s : Settings) : ℚ := s.numLanes + 3

/-- `getNativeCanvasWidth()` (line 32): `settings.numCols * settings.colWidth`. -/
def getNativeCanvasWidth (s : Settings) : ℚ := s.numCols * s.colWidth

/-- `getNativeCanvasHeight()` (lines 34-35):
`getNumRows() * settings.rowHeight + settings.tileTop + settings.tileBottom`. -/
def getNativeCanvasHeight (s : Settings) : ℚ :=
  getNumRows s * s.rowHeight + s.tileTop + s.tileBottom

/-- `getScalingFactor()` (line 39). -/
def getScalingFactor (s : Settings) : ℚ := s.scale

/-- `getNativeColWidth()` (line 41). -/
def getNativeColWidth (s : Settings) : ℚ := s.colWidth

/-- `getColWidth()` (line 43): `settings.scale * settings.colWidth`. -/
def getColWidth (s : Settings) : ℚ := s.scale * s.colWidth

/-- `getNativeRowHeight()` (line 45). -/
def getNativeRowHeight (s : Settings) : ℚ := s.rowHeight

/-- `getRowHeight()` (line 47): `settings.scale * settings.rowHeight`. -/
def getRowHeight (s : Settings) : ℚ := s.scale * s.rowHeight

/-- `getNativeDY()` (line 49). -/
def getNativeDY (s : Settings) : ℚ := s.dy

/-- `getDY()` (line 51): `settings.scale * settings.dy`. -/
def getDY (s : Settings) : ℚ := s.scale * s.dy

/-- `getCanvasWidth()` (line 65): `settings.scale * getNativeCanvasWidth()`. -/
def getCanvasWidth (s : Settings) : ℚ := s.scale * getNativeCanvasWidth s

/-- `getCanvasHeight()` (line 67): `settings.scale * getNativeCanvasHeight()`. -/
def getCanvasHeight (s : Settings) : ℚ := s.scale * getNativeCanvasHeight s

/-- `getPlayerStartCol()` (line 69): `Math.floor(settings.numCols / 2)`. -/
def getPlayerStartCol (s : Settings) : ℤ := ⌊s.numCols / 2⌋

/-- `getPlayerStartRow()` (line 71): `getNumRows() - 1`. -/
def getPlayerStartRow (s : Settings) : ℚ := getNumRows s - 1

/-- `setScalingFactor(scale)` (line 75): installs the scale and
returns it. -/
def setScalingFactor (scale : ℚ) (s : Settings) : Settings × ℚ :=
  ({ s with scale := scale }, scale)

/-- `incrementGameDifficulty()` (lines 77-79). -/
def incrementGameDifficulty (s : Settings) : Settings × Option ℚ :=
  if s.gameDifficulty < 20 then
    ({ s with gameDifficulty := s.gameDifficulty + 1 }, some (s.gameDifficulty + 1))
  else (s, none)

/-- `decrementGameDifficulty()` (lines 81-83). -/
def decrementGameDifficulty (s : Settings) : Settings × Option ℚ :=
  if s.gameDifficulty > 1 then
    ({ s with gameDifficulty := s.gameDifficulty - 1 }, some (s.gameDifficulty - 1))
  else (s, none)

/-- `incrementNumEnemies()` (lines 85-87). -/
def incrementNumEnemies (s : Settings) : Settings × Option ℚ :=
  if s.numEnemies < 20 then
    ({ s with numEnemies := s.numEnemies + 1 }, some (s.numEnemies + 1))
  else (s, none)

/-- `decrementNumEnemies()` (lines 89-91). -/
def decrementNumEnemies (s : Settings) : Settings × Option ℚ :=
  if s.numEnemies > 0 then
    ({ s with numEnemies := s.numEnemies - 1 }, some (s.numEnemies - 1))
  else (s, none)

/-- `incrementNumLanes()` (lines 93-95). -/
def incrementNumLanes (s : Settings) : Settings × Option ℚ :=
  if s.numLanes < 10 then
    ({ s with numLanes := s.numLanes + 1 }, some (s.numLanes + 1))
  else (s, none)

/-- `decrementNumLanes()` (lines 97-99). -/
def decrementNumLanes (s : Settings) : Settings × Option ℚ :=
  if s.numLanes > 1 then
    ({ s with numLanes := s.numLanes - 1 }, some (s.numLanes - 1))
  else (s, none)

/-- `incrementNumCols()` (lines 101-103). -/
def incrementNumCols (s : Settings) : Settings × Option ℚ :=
  if s.numCols < 20 then
    ({ s with numCols := s.numCols + 1 }, some (s.numCols + 1))
  else (s, none)

/-- `decrementNumCols()` (lines 105-107). -/
def decrementNumCols (s : Settings) : Settings × Option ℚ :=
  if s.numCols > 1 then
    ({ s with numCols := s.numCols - 1 }, some (s.numCols - 1))
  else (s, none)

/-- One mutation of the CONFIG state: any increment/decrement setter
or an installation of a new scaling factor. -/
inductive ConfigOp where
  | incDifficulty
  | decDifficulty
  | incEnemies
  | decEnemies
  | incLanes
  | decLanes
  | incCols
  | decCols
  | setScale (scale : ℚ)

/-- Apply one `ConfigOp`, discarding the returned value. -/
def applyOp (s : Settings) : ConfigOp → Settings
  | .incDifficulty => (incrementGameDifficulty s).1
  | .decDifficulty => (decrementGameDifficulty s).1
  | .incEnemies => (incrementNumEnemies s).1
  | .decEnemies => (decrementNumEnemies s).1
  | .incLanes => (incrementNumLanes s).1
  | .decLanes => (decrementNumLanes s).1
  | .incCols => (incrementNumCols s).1
  | .decCols => (decrementNumCols s).1
  | .setScale scale => (setScalingFactor scale s).1

/-- Run a sequence of CONFIG mutations. -/
def runOps (s : Settings) (ops : List ConfigOp) : Settings :=
  ops.foldl applyOp s

/-- No `ConfigOp` touches the tileset fields. -/
theorem runOps_tileset (ops : List ConfigOp) :
    ∀ s : Settings,
      (runOps s ops).colWidth = s.colWidth ∧
      (runOps s ops).rowHeight = s.rowHeight ∧
      (runOps s ops).tileTop = s.tileTop ∧
      (runOps s ops).tileBottom = s.tileBottom := by
  induction ops with
  | nil => exact fun s => ⟨rfl, rfl, rfl, rfl⟩
  | cons op ops ih =>
    intro s
    have hstep : (applyOp s op).colWidth = s.colWidth ∧
        (applyOp s op).rowHeight = s.rowHeight ∧
        (applyOp s op).tileTop = s.tileTop ∧
        (applyOp s op).tileBottom = s.tileBottom := by
      cases op <;>
        simp only [applyOp, incrementGameDifficulty, decrementGameDifficulty,
          incrementNumEnemies, decrementNumEnemies, incrementNumLanes,
          decrementNumLanes, incrementNumCols, decrementNumCols,
          setScalingFactor] <;>
        first
          | exact ⟨trivial, trivial, trivial, trivial⟩
          | (split_ifs <;> exact ⟨rfl, rfl, rfl, rfl⟩)
    have htail := ih (applyOp s op)
    rw [runOps, List.foldl_cons]
    rw [runOps] at htail
    exact ⟨htail.1.trans hstep.1, htail.2.1.trans hstep.2.1,
      htail.2.2.1.trans hstep.2.2.1, htail.2.2.2.trans hstep.2.2.2⟩

/-- C6.  In every CONFIG state reachable by `init` followed by any
sequence of increment/decrement/scale mutations, the derived getters
recompute live from the current settings (and the tileset fields these
formulas read are still the initial literals — nothing is cached). -/
theorem config_derived_getters_live
    (numLanes numCols numEnemies baseEnemySpeed gameDifficulty : ℚ)
    (ops : List ConfigOp) (s : Settings)
    (hs : s = runOps (configInit numLanes numCols numEnemies baseEnemySpeed
      gameDifficulty) ops) :
    getNumRows s = s.numLanes + 3 ∧
    getPlayerStartCol s = ⌊s.numCols / 2⌋ ∧
    getPlayerStartRow s = getNumRows s - 1 ∧
    getNativeCanvasWidth s = s.numCols * s.colWidth ∧
    getNativeCanvasHeight s = getNumRows s * s.rowHeight + s.tileTop + s.tileBottom ∧
    s.colWidth = 101 ∧ s.rowHeight = 83 ∧ s.tileTop = 51 ∧ s.tileBottom = 37 := by
  subst hs
  refine ⟨rfl, rfl, rfl, rfl, rfl, ?_, ?_, ?_, ?_⟩
  · exact (runOps_tileset ops _).1
  · exact (runOps_tileset ops _).2.1
  · exact (runOps_tileset ops _).2.2.1
  · exact (runOps_tileset ops _).2.2.2

/-- C6 witness: after the default `init(4, 7, 10, 200, 4)` and one lane
increment, the row count getter still equals the live lane setting
plus three. -/
theorem config_derived_getters_live_witness :
    getNumRows (runOps (configInit 4 7 10 200 4) [ConfigOp.incLanes]) =
      (runOps (configInit 4 7 10 200 4) [ConfigOp.incLanes]).numLanes + 3 :=
  (config_derived_getters_live 4 7 10 200 4 [ConfigOp.incLanes] _ rfl).1

/-- C7 counterexample.  `init` accepts a game difficulty of 21; there
`incrementGameDifficulty` is called with its setting not at the
documented bound 20, yet it leaves the entire settings state unchanged
and returns nothing, contradicting the claimed at-the-bound/otherwise
dichotomy. -/
theorem incrementGameDifficulty_past_bound_noop :
    (configInit 1 1 1 200 21).gameDifficulty ≠ 20 ∧
    incrementGameDifficulty (configInit 1 1 1 200 21) =
      (configInit 1 1 1 200 21, none) := by
  constructor
  · norm_num [configInit]
  · rw [incrementGameDifficulty, if_neg]
    norm_num [configInit]

/-- C7 (amended).  Each increment/decrement setter applies exactly when
its guard holds (difficulty `< 20` / `> 1`, enemies `< 20` / `> 0`,
lanes `< 10` / `> 1`, columns `< 20` / `> 1`): then it changes exactly
that one setting by 1, leaves every other setting unchanged and
returns the updated value; when the guard fails — in particular at the
documented bound, but also anywhere beyond it — the entire settings
state is unchanged and nothing is returned.  No call signals an
error. -/
theorem config_setters_guarded (s : Settings) :
    ((incrementGameDifficulty s).1.gameDifficulty =
        (if s.gameDifficulty < 20 then s.gameDifficulty + 1 else s.gameDifficulty) ∧
      (incrementGameDifficulty s).2 =
        (if s.gameDifficulty < 20 then some (s.gameDifficulty + 1) else none) ∧
      (incrementGameDifficulty s).1 =
        { s with gameDifficulty := (incrementGameDifficulty s).1.gameDifficulty }) ∧
    ((decrementGameDifficulty s).1.gameDifficulty =
        (if s.gameDifficulty > 1 then s.gameDifficulty - 1 else s.gameDifficulty) ∧
      (decrementGameDifficulty s).2 =
        (if s.gameDifficulty > 1 then some (s.gameDifficulty - 1) else none) ∧
      (decrementGameDifficulty s).1 =
        { s with gameDifficulty := (decrementGameDifficulty s).1.gameDifficulty }) ∧
    ((incrementNumEnemies s).1.numEnemies =
        (if s.numEnemies < 20 then s.numEnemies + 1 else s.numEnemies) ∧
      (incrementNumEnemies s).2 =
        (if s.numEnemies < 20 then some (s.numEnemies + 1) else none) ∧
      (incrementNumEnemies s).1 =
        { s with numEnemies := (incrementNumEnemies s).1.numEnemies }) ∧
    ((decrementNumEnemies s).1.numEnemies =
        (if s.numEnemies > 0 then s.numEnemies - 1 else s.numEnemies) ∧
      (decrementNumEnemies s).2 =
        (if s.numEnemies > 0 then some (s.numEnemies - 1) else none) ∧
      (decrementNumEnemies s).1 =
        { s with numEnemies := (decrementNumEnemies s).1.numEnemies }) ∧
    ((incrementNumLanes s).1.numLanes =
        (if s.numLanes < 10 then s.numLanes + 1 else s.numLanes) ∧
      (incrementNumLanes s).2 =
        (if s.numLanes < 10 then some (s.numLanes + 1) else none) ∧
      (incrementNumLanes s).1 =
        { s with numLanes := (incrementNumLanes s).1.numLanes }) ∧
    ((decrementNumLanes s).1.numLanes =
        (if s.numLanes > 1 then s.numLanes - 1 else s.numLanes) ∧
      (decrementNumLanes s).2 =
        (if s.numLanes > 1 then some (s.numLanes - 1) else none) ∧
      (decrementNumLanes s).1 =
        { s with numLanes := (decrementNumLanes s).1.numLanes }) ∧
    ((incrementNumCols s).1.numCols =
        (if s.numCols < 20 then s.numCols + 1 else s.numCols) ∧
      (incrementNumCols s).2 =
        (if s.numCols < 20 then some (s.numCols + 1) else none) ∧
      (incrementNumCols s).1 =
        { s with numCols := (incrementNumCols s).1.numCols }) ∧
    ((decrementNumCols s).1.numCols =
        (if s.numCols > 1 then s.numCols - 1 else s.numCols) ∧
      (decrementNumCols s).2 =
        (if s.numCols > 1 then some (s.numCols - 1) else none) ∧
      (decrementNumCols s).1 =
        { s with numCols := (decrementNumCols s).1.numCols }) := by
  refine ⟨⟨?_, ?_, ?_⟩, ⟨?_, ?_, ?_⟩, ⟨?_, ?_, ?_⟩, ⟨?_, ?_, ?_⟩,
    ⟨?_, ?_, ?_⟩, ⟨?_, ?_, ?_⟩, ⟨?_, ?_, ?_⟩, ⟨?_, ?_, ?_⟩⟩ <;>
  · simp only [incrementGameDifficulty, decrementGameDifficulty,
      incrementNumEnemies, decrementNumEnemies, incrementNumLanes,
      decrementNumLanes, incrementNumCols, decrementNumCols]
    first
      | rfl
      | (split_ifs <;> rfl)

/-! ## Scaled coordinates (configModule.js lines 37-75 and the
CONFIG-based app variant, `Entity.prototype.scaledX` / `scaledY`) -/

/-- `Entity.prototype.scaledX`: `this.x * CONFIG.getScalingFactor()`. -/
def scaledX (s : Settings) (x : ℚ) : ℚ := x * getScalingFactor s

/-- `Entity.prototype.scaledY`: `this.y * CONFIG.getScalingFactor()`. -/
def scaledY (s : Settings) (y : ℚ) : ℚ := y * getScalingFactor s

/-- C8.  After installing any positive scale, every scaled getter is
the scale times its native counterpart, an entity's scaled coordinates
are the scale times its stored coordinates, and every native getter is
unaffected by the installation. -/
theorem scaling_factor_getters (s : Settings) (scale : ℚ) (hpos : 0 < scale)
    (x y : ℚ) (s2 : Settings) (hs2 : s2 = (setScalingFactor scale s).1) :
    getColWidth s2 = scale * getNativeColWidth s2 ∧
    getRowHeight s2 = scale * getNativeRowHeight s2 ∧
    getDY s2 = scale * getNativeDY s2 ∧
    getCanvasWidth s2 = scale * getNativeCanvasWidth s2 ∧
    getCanvasHeight s2 = scale * getNativeCanvasHeight s2 ∧
    scaledX s2 x = scale * x ∧
    scaledY s2 y = scale * y ∧
    getNativeColWidth s2 = getNativeColWidth s ∧
    getNativeRowHeight s2 = getNativeRowHeight s ∧
    getNativeDY s2 = getNativeDY s ∧
    getNativeCanvasWidth s2 = getNativeCanvasWidth s ∧
    getNativeCanvasHeight s2 = getNativeCanvasHeight s := by
  subst hs2
  exact ⟨rfl, rfl, rfl, rfl, rfl, mul_comm _ _, mul_comm _ _,
    rfl, rfl, rfl, rfl, rfl⟩

/-- C8 witness: installing scale 2 on the default configuration
doubles the column width getter relative to the unchanged native
one. -/
theorem scaling_factor_getters_witness :
    getColWidth ((setScalingFactor 2 (configInit 4 7 10 200 4)).1) =
      2 * getNativeColWidth ((setScalingFactor 2 (configInit 4 7 10 200 4)).1) :=
  (scaling_factor_getters (configInit 4 7 10 200 4) 2 (by norm_num) 0 0 _ rfl).1

end Bugger
